import Mathlib

/-!
Verification of the `simple_calender` repository (src/main.rs): a Schedule
value type with an interval-overlap predicate, and a Calendar with a
conflict-checked insertion algorithm.
-/

/-- `chrono::NaiveDateTime`: a time-zone-naive date-time. The program uses
only its total (chronological) order, so it is embedded as an integer
instant. -/
abbrev DateTime := Int

/-- Mixed-radix encoding of a calendar date-time `(y, m, d, h, mi, s)` into
an instant. On valid date-times this encoding is strictly monotone with
chronological order, matching `chrono`'s `Ord` for `NaiveDateTime`. -/
def dateTime (year month day hour minute second : Nat) : DateTime :=
  (((((((year * 13 + month) * 32 + day) * 24 + hour) * 60 + minute) * 60
      + second : Nat) : Int))

/-- `struct Schedule` (src/main.rs lines 9-15): id, subject, and a start/end
date-time pair. -/
structure Schedule where
  id : Nat
  subject : String
  start : DateTime
  «end» : DateTime
deriving DecidableEq

/-- `Schedule::intersects` (src/main.rs lines 18-20). The code computes
exactly `self.start < other.end` — a one-sided comparison. -/
def Schedule.intersects (self other : Schedule) : Bool :=
  decide (self.start < other.«end»)

/-- Modelled from the spec: the canonical half-open-interval overlap test,
`a.start < b.end AND b.start < a.end` (spec §4.1). Kept separate from
`Schedule.intersects`, which embeds the source. -/
def intersectsSpec (a b : Schedule) : Bool :=
  decide (a.start < b.«end») && decide (b.start < a.«end»)

/-- `struct Calendar` (src/main.rs lines 23-26): an ordered sequence of
schedules. -/
structure Calendar where
  schedules : List Schedule
deriving DecidableEq

/-- Outcome of the insertion operation: the conflict message or the
success message printed by `add_schedule`. -/
inductive AddResult where
  | conflict
  | success
deriving DecidableEq

/-- Core logic of `add_schedule` (src/main.rs lines 79-113), with the
storage round-trip made explicit as state passing: the id is the current
length of `schedules`, the candidate is checked against every existing
schedule with `Schedule.intersects`, a conflict returns the calendar
unchanged, and otherwise the candidate is pushed at the end. -/
def add_schedule (calendar : Calendar) (subject : String)
    (start «end» : DateTime) : AddResult × Calendar :=
  let new_schedule : Schedule :=
    ⟨calendar.schedules.length, subject, start, «end»⟩
  if calendar.schedules.any (fun schedule => schedule.intersects new_schedule)
  then (AddResult.conflict, calendar)
  else (AddResult.success, ⟨calendar.schedules ++ [new_schedule]⟩)

/-- A sequence of `add` commands run against a calendar, returning the
outcome of each insertion and the final calendar. -/
def run_inserts (reqs : List (String × DateTime × DateTime))
    (c : Calendar) : List AddResult × Calendar :=
  match reqs with
  | [] => ([], c)
  | (subject, start, «end») :: rest =>
    let step := add_schedule c subject start «end»
    let tail := run_inserts rest step.2
    (step.1 :: tail.1, tail.2)

/-- Fixture: the existing schedule of the repository's own
`test_schedule_intersects_5` — `[2024-12-08 09:00, 2024-12-08 10:30)`. -/
def testSchedule5 : Schedule :=
  ⟨1, "existing5", dateTime 2024 12 8 9 0 0, dateTime 2024 12 8 10 30 0⟩

/-- Fixture: the candidate schedule of the repository's own
`test_schedule_intersects_5` — `[2024-12-15 10:00, 2024-12-15 11:00)`. -/
def testNew5 : Schedule :=
  ⟨2, "new5", dateTime 2024 12 15 10 0 0, dateTime 2024 12 15 11 0 0⟩

/-- C1: the claim states `intersects(a, b)` holds iff
`a.start < b.end AND b.start < a.end`. The code computes only
`self.start < other.end`, so on the disjoint pair from the repository's own
`test_schedule_intersects_5` (which asserts no intersection) the code
returns `true` while the canonical test returns `false`. -/
theorem c1_intersects_not_canonical :
    Schedule.intersects testSchedule5 testNew5 = true ∧
      intersectsSpec testSchedule5 testNew5 = false := by
  decide

/-- C2: the claim states `intersects` is symmetric. The code's one-sided
comparison is not: for existing `[18:15, 18:45)` and candidate
`[19:00, 20:00)` on 2024-01-01, one order returns `true` and the other
`false`. -/
theorem c2_intersects_not_symmetric :
    Schedule.intersects
        ⟨1, "a", dateTime 2024 1 1 18 15 0, dateTime 2024 1 1 18 45 0⟩
        ⟨2, "b", dateTime 2024 1 1 19 0 0, dateTime 2024 1 1 20 0 0⟩ = true ∧
      Schedule.intersects
        ⟨2, "b", dateTime 2024 1 1 19 0 0, dateTime 2024 1 1 20 0 0⟩
        ⟨1, "a", dateTime 2024 1 1 18 15 0, dateTime 2024 1 1 18 45 0⟩
        = false := by
  decide

/-- C3: the claim states `[t0, t1)` and `[t1, t2)` never intersect for
`t0 < t1 < t2`. With `t0 = 18:00`, `t1 = 19:00`, `t2 = 20:00` on
2024-01-01 the code reports an intersection, since it only checks
`t0 < t2`. -/
theorem c3_touching_intervals_intersect :
    (dateTime 2024 1 1 18 0 0 < dateTime 2024 1 1 19 0 0 ∧
      dateTime 2024 1 1 19 0 0 < dateTime 2024 1 1 20 0 0) ∧
    Schedule.intersects
        ⟨0, "a", dateTime 2024 1 1 18 0 0, dateTime 2024 1 1 19 0 0⟩
        ⟨1, "b", dateTime 2024 1 1 19 0 0, dateTime 2024 1 1 20 0 0⟩
        = true := by
  decide

/-- C7: the claim states two schedules whose intervals share no instant
never intersect, in particular existing `[18:15, 18:45)` with candidate
`[19:00, 20:00)` yields no conflict. The intervals are disjoint
(`a.end ≤ b.start`), yet insertion of the candidate reports a conflict. -/
theorem c7_disjoint_reported_as_conflict :
    dateTime 2024 1 1 18 45 0 ≤ dateTime 2024 1 1 19 0 0 ∧
    (add_schedule
        ⟨[⟨0, "existing", dateTime 2024 1 1 18 15 0,
            dateTime 2024 1 1 18 45 0⟩]⟩
        "candidate" (dateTime 2024 1 1 19 0 0)
        (dateTime 2024 1 1 20 0 0)).1 = AddResult.conflict := by
  decide

/-- C8: for every schedule `a` with `a.start < a.end`, `intersects(a, a)`
returns `true`: the code's test reduces to `a.start < a.end` itself. -/
theorem c8_self_intersects (a : Schedule) (h : a.start < a.«end») :
    a.intersects a = true := by
  simp [Schedule.intersects, h]

/-- C8 witness: a concrete valid schedule intersects itself. -/
theorem c8_self_intersects_witness :
    ((0 : Int) < 10) ∧
      Schedule.intersects ⟨0, "x", 0, 10⟩ ⟨0, "x", 0, 10⟩ = true :=
  ⟨by decide, c8_self_intersects ⟨0, "x", 0, 10⟩ (by decide)⟩

/-- C4: if the insertion reports a conflict, the calendar is returned
exactly as it was: the candidate is never appended. -/
theorem c4_conflict_leaves_calendar_unchanged
    (calendar : Calendar) (subject : String) (start «end» : DateTime)
    (h : (add_schedule calendar subject start «end»).1 = AddResult.conflict) :
    (add_schedule calendar subject start «end»).2 = calendar := by
  by_cases hc : calendar.schedules.any
      (fun schedule =>
        schedule.intersects ⟨calendar.schedules.length, subject, start, «end»⟩)
  · simp [add_schedule, hc]
  · simp [add_schedule, hc] at h

/-- C4 witness: a concrete conflicting insertion leaves the one-schedule
calendar unchanged. -/
theorem c4_witness :
    (add_schedule ⟨[⟨0, "a", 0, 10⟩]⟩ "b" 5 6).1 = AddResult.conflict ∧
      (add_schedule ⟨[⟨0, "a", 0, 10⟩]⟩ "b" 5 6).2 = ⟨[⟨0, "a", 0, 10⟩]⟩ :=
  ⟨by decide, c4_conflict_leaves_calendar_unchanged _ _ _ _ (by decide)⟩

/-- C5: if no existing schedule intersects the candidate built from
`(len, subject, start, end)`, the insertion appends exactly that candidate
at the end, keeps all earlier schedules in order, and reports success. -/
theorem c5_no_conflict_appends
    (calendar : Calendar) (subject : String) (start «end» : DateTime)
    (h : ∀ s ∈ calendar.schedules,
        s.intersects ⟨calendar.schedules.length, subject, start, «end»⟩
          = false) :
    add_schedule calendar subject start «end» =
      (AddResult.success,
        ⟨calendar.schedules
          ++ [⟨calendar.schedules.length, subject, start, «end»⟩]⟩) := by
  have hc : calendar.schedules.any
      (fun schedule =>
        schedule.intersects ⟨calendar.schedules.length, subject, start, «end»⟩)
      = false := by
    simp only [List.any_eq_false]
    intro s hs
    simpa using h s hs
  simp [add_schedule, hc]

/-- C5 witness: a candidate that conflicts with nothing is appended with
id equal to the prior length, and the prior schedule is preserved. -/
theorem c5_witness :
    (∀ s ∈ (Calendar.mk [⟨0, "a", 100, 110⟩]).schedules,
        Schedule.intersects s ⟨1, "b", 0, 50⟩ = false) ∧
    add_schedule ⟨[⟨0, "a", 100, 110⟩]⟩ "b" 0 50 =
      (AddResult.success, ⟨[⟨0, "a", 100, 110⟩, ⟨1, "b", 0, 50⟩]⟩) :=
  ⟨by decide, c5_no_conflict_appends ⟨[⟨0, "a", 100, 110⟩]⟩ "b" 0 50
    (by decide)⟩

/-- Every insertion (conflicting or not) preserves the positional-id
invariant: the list of ids equals `range` of the length. -/
theorem add_schedule_preserves_ids
    (calendar : Calendar) (subject : String) (start «end» : DateTime)
    (h : calendar.schedules.map Schedule.id
        = List.range calendar.schedules.length) :
    (add_schedule calendar subject start «end»).2.schedules.map Schedule.id
      = List.range
          (add_schedule calendar subject start «end»).2.schedules.length := by
  by_cases hc : calendar.schedules.any
      (fun schedule =>
        schedule.intersects ⟨calendar.schedules.length, subject, start, «end»⟩)
  · simpa [add_schedule, hc] using h
  · simp [add_schedule, hc, List.range_succ, h]

/-- A successful insertion grows the schedule list by exactly one; a
conflicting one leaves it untouched. -/
theorem add_schedule_length
    (calendar : Calendar) (subject : String) (start «end» : DateTime)
    (h : (add_schedule calendar subject start «end»).1 = AddResult.success) :
    (add_schedule calendar subject start «end»).2.schedules.length
      = calendar.schedules.length + 1 := by
  by_cases hc : calendar.schedules.any
      (fun schedule =>
        schedule.intersects ⟨calendar.schedules.length, subject, start, «end»⟩)
  · simp [add_schedule, hc] at h
  · simp [add_schedule, hc]

/-- Generalized run invariant: from any calendar with positional ids, any
request sequence keeps ids positional, and if every outcome was a success
the length grew by exactly the number of requests. -/
theorem run_inserts_invariant
    (reqs : List (String × DateTime × DateTime)) (c : Calendar)
    (h : c.schedules.map Schedule.id = List.range c.schedules.length) :
    ((run_inserts reqs c).2.schedules.map Schedule.id
        = List.range (run_inserts reqs c).2.schedules.length) ∧
    ((run_inserts reqs c).1.all (fun r => r = AddResult.success) = true →
      (run_inserts reqs c).2.schedules.length
        = c.schedules.length + reqs.length) := by
  induction reqs generalizing c with
  | nil => simpa [run_inserts] using h
  | cons req rest ih =>
    obtain ⟨subject, start, en⟩ := req
    have step := ih (add_schedule c subject start en).2
      (add_schedule_preserves_ids c subject start en h)
    refine ⟨by simpa [run_inserts] using step.1, ?_⟩
    intro hall
    simp only [run_inserts, List.all_cons, Bool.and_eq_true, decide_eq_true_eq]
      at hall
    have hlen := add_schedule_length c subject start en hall.1
    have := step.2 hall.2
    simp only [run_inserts, List.length_cons]
    omega

/-- C6: starting from the empty calendar, after any request sequence the
stored ids are exactly `0, 1, ..., len-1` in insertion order (each insert
assigns the current length as the id), and when all `N` inserts succeeded
the length is `N`, so the ids are exactly `0..N-1`. -/
theorem c6_ids_dense (reqs : List (String × DateTime × DateTime)) :
    ((run_inserts reqs ⟨[]⟩).2.schedules.map Schedule.id
        = List.range (run_inserts reqs ⟨[]⟩).2.schedules.length) ∧
    ((run_inserts reqs ⟨[]⟩).1.all (fun r => r = AddResult.success) = true →
      (run_inserts reqs ⟨[]⟩).2.schedules.length = reqs.length) := by
  have h := run_inserts_invariant reqs ⟨[]⟩ (by simp)
  simpa using h

/-- C6 witness: two successful inserts from the empty calendar yield ids
`[0, 1]` and length `2`. -/
theorem c6_witness :
    ((run_inserts [("a", 100, 110), ("b", 0, 50)] ⟨[]⟩).2.schedules.map
        Schedule.id
      = List.range
          (run_inserts [("a", 100, 110), ("b", 0, 50)]
            ⟨[]⟩).2.schedules.length) ∧
    (run_inserts [("a", 100, 110), ("b", 0, 50)] ⟨[]⟩).2.schedules.length
      = 2 :=
  ⟨(c6_ids_dense [("a", 100, 110), ("b", 0, 50)]).1,
    (c6_ids_dense [("a", 100, 110), ("b", 0, 50)]).2 (by decide)⟩

/-- C9: inserting into an empty calendar always succeeds and appends the
schedule `⟨0, subject, start, end⟩`, for every subject and every pair of
date-times — including degenerate inputs with `start ≥ end`, which undergo
no validation. -/
theorem c9_empty_insert_succeeds (subject : String)
    (start «end» : DateTime) :
    add_schedule ⟨[]⟩ subject start «end» =
      (AddResult.success, ⟨[⟨0, subject, start, «end»⟩]⟩) := by
  simp [add_schedule]

/-- C10: the result of `intersects(a, b)` depends only on `a.start` and
`b.end`: ids, subjects, `a.end` and `b.start` are never read. -/
theorem c10_intersects_depends_only_on_start_end
    (a b a2 b2 : Schedule) (h1 : a.start = a2.start)
    (h2 : b.«end» = b2.«end») :
    a.intersects b = a2.intersects b2 := by
  simp [Schedule.intersects, h1, h2]

/-- C10 witness: two pairs agreeing only on the first start and second end
(differing in id, subject, the other endpoints) give the same result. -/
theorem c10_witness :
    (Schedule.start ⟨0, "p", 3, 7⟩ = Schedule.start ⟨5, "q", 3, 100⟩) ∧
    (Schedule.«end» ⟨1, "r", 4, 9⟩ = Schedule.«end» ⟨9, "s", 50, 9⟩) ∧
    Schedule.intersects ⟨0, "p", 3, 7⟩ ⟨1, "r", 4, 9⟩ =
      Schedule.intersects ⟨5, "q", 3, 100⟩ ⟨9, "s", 50, 9⟩ :=
  ⟨rfl, rfl,
    c10_intersects_depends_only_on_start_end
      ⟨0, "p", 3, 7⟩ ⟨1, "r", 4, 9⟩ ⟨5, "q", 3, 100⟩ ⟨9, "s", 50, 9⟩ rfl rfl⟩
